import Mathlib

/-!
# Verification of the ha-raumkernel RaumkernelHelper core

Shallow embedding of the identity-reconciliation and command-routing layer of
`ha-raumkernel-addon/rootfs/app/RaumkernelHelper.js` (served from the repository
as the second half of `src/ha-raumkernel-addon/rootfs/app/index.js`).

Conventions of the embedding:
* The room registry (a JS `Map` keyed by renderer UDN, iterated in insertion
  order) is modelled as a `List RoomInfo`; the registry key is the
  `rendererUdn` field.
* JS `null`/`undefined` string fields are `Option String`; JS truthiness of a
  string (`if (s)`) is `s ≠ ""` on a present value.
* The asynchronous collaborator (device manager, zone manager, renderer
  objects) is modelled as an explicit environment record of query results, and
  command side effects are recorded as explicit call traces.
-/

set_option autoImplicit false

namespace Raumfeld

/-- Character-list prefix test, written out so every string predicate in this
file reduces by `decide`/`rfl`. -/
def leadsList : List Char → List Char → Bool
  | [], _ => true
  | _ :: _, [] => false
  | a :: as, b :: bs => a == b && leadsList as bs

/-- `containsRun needle hay` is true when `needle` occurs as a contiguous run
inside `hay`; models JavaScript `hay.includes(needle)` on the char level. -/
def containsRun (needle : List Char) : List Char → Bool
  | [] => needle.isEmpty
  | b :: bs => leadsList needle (b :: bs) || containsRun needle bs

/-- Models JavaScript `hay.includes(needle)`. -/
def strContains (hay needle : String) : Bool :=
  containsRun needle.toList hay.toList

/-- Models JavaScript `hay.startsWith(needle)`. -/
def strStarts (hay needle : String) : Bool :=
  leadsList needle.toList hay.toList

/-- Models JavaScript `hay.toLowerCase().includes(needle.toLowerCase())`
(and the equivalent case-insensitive regex tests); the case fold is applied
per character. -/
def strContainsCI (hay needle : String) : Bool :=
  containsRun (needle.toList.map Char.toLower) (hay.toList.map Char.toLower)

/-- JS truthiness of a nullable string: `null`/`undefined` and `""` are falsy. -/
def otruthy : Option String → Bool
  | none => false
  | some s => s != ""

/-- `RoomInfo` record from `_createRoomInfo` / the broadcast `RoomState`:
the fields the claims touch (name, roomUdn, rendererUdn and the three mutable
zone fields). -/
structure RoomInfo where
  name : String
  roomUdn : String
  rendererUdn : String
  zoneUdn : Option String
  zoneMembers : List String
  zoneName : Option String
deriving DecidableEq

/-- One zone descriptor of a combined-zone-state snapshot; `roomUdns` models
`zone.rooms?.map(r => r.udn) ?? []`. -/
structure ZoneDesc where
  udn : String
  name : String
  isZone : Bool
  roomUdns : List String
deriving DecidableEq

/-- The per-room reset of step 1 of `_updateZoneMappings`: zone fields go back
to the ungrouped shape, identity fields are untouched. -/
def resetZone (r : RoomInfo) : RoomInfo :=
  { r with zoneUdn := none, zoneMembers := [r.roomUdn], zoneName := none }

/-- In-place mutation of the first list element satisfying `p` (a JS `Map`
holds at most one entry per key, so the mutation of the found room touches the
first match in the iteration order). -/
def updateFirst {α : Type} (p : α → Bool) (f : α → α) : List α → List α
  | [] => []
  | a :: t => if p a then f a :: t else a :: updateFirst p f t

/-- The zone-field assignment performed on a matched room inside
`_updateZoneMappings`. -/
def setZone (z : ZoneDesc) (members : List String) (r : RoomInfo) : RoomInfo :=
  { r with zoneUdn := some z.udn, zoneMembers := members, zoneName := some z.name }

/-- One iteration of the inner member loop of `_updateZoneMappings`:
`_findRoomByAnyUdn` first tries the registry key (renderer UDN), then scans for
a room UDN match, and the found room (if any) receives the zone fields. -/
def applyMember (z : ZoneDesc) (members : List String) (rooms : List RoomInfo)
    (m : String) : List RoomInfo :=
  if rooms.any (fun r => r.rendererUdn == m) then
    updateFirst (fun r => r.rendererUdn == m) (setZone z members) rooms
  else
    updateFirst (fun r => r.roomUdn == m) (setZone z members) rooms

/-- One iteration of the outer zone loop of `_updateZoneMappings`: descriptors
without the `isZone` flag are skipped. -/
def applyZone (rooms : List RoomInfo) (z : ZoneDesc) : List RoomInfo :=
  if z.isZone then z.roomUdns.foldl (applyMember z z.roomUdns) rooms else rooms

/-- `_updateZoneMappings(combinedState)` on the registry: `none` models an
absent or null `zones` field (`if (!combinedState?.zones) return;`); with a
present list the registry is first fully reset and then the zone loop runs. -/
def updateZoneMappings (zones? : Option (List ZoneDesc)) (rooms : List RoomInfo) :
    List RoomInfo :=
  match zones? with
  | none => rooms
  | some zones => zones.foldl applyZone (rooms.map resetZone)

/-- A room in the ungrouped shape produced by step 1 of `_updateZoneMappings`. -/
def Ungrouped (r : RoomInfo) : Prop :=
  r.zoneUdn = none ∧ r.zoneMembers = [r.roomUdn] ∧ r.zoneName = none

/-- A room whose zone fields equal those of some group-flagged descriptor of
the snapshot that names the room (by renderer UDN — the registry key — or by
room UDN) among its members. -/
def GroupedBy (zones : List ZoneDesc) (r : RoomInfo) : Prop :=
  ∃ z ∈ zones, z.isZone = true ∧
    (r.rendererUdn ∈ z.roomUdns ∨ r.roomUdn ∈ z.roomUdns) ∧
    r.zoneUdn = some z.udn ∧ r.zoneMembers = z.roomUdns ∧ r.zoneName = some z.name

/-- `findRoom(identifier)` over the broadcast room list: exact room-UDN match,
then exact zone-UDN match, then — for identifiers longer than two characters —
an unambiguous case-insensitive name-substring match. -/
def findRoom (rooms : List RoomInfo) (identifier : String) : Option RoomInfo :=
  if identifier == "" then none
  else
    match rooms.find? (fun r => r.roomUdn == identifier) with
    | some r => some r
    | none =>
      match rooms.find? (fun r => r.zoneUdn == some identifier) with
      | some r => some r
      | none =>
        if 2 < identifier.length then
          match rooms.filter
              (fun r => strContainsCI r.name identifier) with
          | [m] => some m
          | _ => none
        else none

/-- The helper's mutable state (`_state` plus the `_rooms` registry);
`favourites` is constant `[]` in the source and omitted. -/
structure HelperState where
  isReady : Bool
  availableRooms : List RoomInfo
  registry : List RoomInfo
deriving DecidableEq

/-- `_resetState()`, run on the `systemHostLost` event: fresh not-ready state
and a cleared registry. -/
def resetState (_s : HelperState) : HelperState :=
  { isReady := false, availableRooms := [], registry := [] }

/-- A virtual (zone) renderer of `deviceManager.mediaRenderersVirtual`:
its key `udn` and its `getRoomRendererUDNs()` member list. -/
structure VirtualRenderer where
  udn : String
  memberRendererUdns : List String
deriving DecidableEq

/-- The collaborator surface consumed by `_getRendererForRoom`: the live
`zoneManager.getZoneUDNFromRoomUDN` query, the virtual-renderer collection and
the set of physical renderer keys of `deviceManager.mediaRenderers`. -/
structure Env where
  live : String → Option String
  virt : List VirtualRenderer
  phys : List String

/-- A resolved controllable endpoint: a virtual (zone) renderer or the room's
physical renderer. -/
inductive RendererHandle where
  | virt (v : VirtualRenderer)
  | phys (udn : String)
deriving DecidableEq

/-- Strategies 1 and 2 of `_getRendererForRoom`: the live zone query wins when
truthy, otherwise the room's cached `zoneUdn` is consulted when truthy. -/
def liveOrCachedZone (env : Env) (room : RoomInfo) : Option String :=
  let z0 := env.live room.roomUdn
  if otruthy z0 then z0
  else if otruthy room.zoneUdn then room.zoneUdn
  else z0

/-- Strategy 3 of `_getRendererForRoom`: direct lookup of the virtual renderer
by the obtained zone UDN (skipped when the zone UDN is falsy). -/
def zoneLookup (env : Env) (room : RoomInfo) : Option VirtualRenderer :=
  match liveOrCachedZone env room with
  | some z => if z != "" then env.virt.find? (fun v => v.udn == z) else none
  | none => none

/-- Strategy 4 of `_getRendererForRoom`: linear scan of the virtual renderers
for one whose declared member list contains the room's renderer UDN. -/
def memberScan (env : Env) (room : RoomInfo) : Option VirtualRenderer :=
  env.virt.find?
    (fun v => room.rendererUdn != "" && v.memberRendererUdns.contains room.rendererUdn)

/-- `_getRendererForRoom(room)`: zone lookup, then member scan, then the
physical renderer (or nothing when even that is unknown). -/
def getRendererForRoom (env : Env) (room : RoomInfo) : Option RendererHandle :=
  match zoneLookup env room with
  | some v => some (RendererHandle.virt v)
  | none =>
    match memberScan env room with
    | some v => some (RendererHandle.virt v)
    | none =>
      if env.phys.contains room.rendererUdn then
        some (RendererHandle.phys room.rendererUdn)
      else none

/-- The transport operations whose invocations the command models record. -/
inductive TransportOp where
  | stop
  | pause
  | prev
deriving DecidableEq

/-- `prev(roomIdentifier)`: after room lookup and renderer resolution succeed,
the underlying `prev()` is invoked twice; the returned list is the trace of
transport calls issued (transport state is not consulted at all). -/
def prevCmd (env : Env) (rooms : List RoomInfo) (id : String) : List TransportOp :=
  match findRoom rooms id with
  | none => []
  | some room =>
    match getRendererForRoom env room with
    | none => []
    | some _ => [TransportOp.prev, TransportOp.prev]

/-- A JS error value as inspected by `stop`: a nullable `errorCode` and a
nullable `message`. -/
structure JsError where
  errorCode : Option String
  message : Option String
deriving DecidableEq

/-- The 701 test of `stop`:
`err.errorCode === '701' || err.message?.includes('701')`. -/
def is701 (e : JsError) : Bool :=
  e.errorCode == some "701" ||
    (match e.message with
     | some m => strContains m "701"
     | none => false)

/-- Boolean success test on a JS promise outcome. -/
def isOkB {ε α : Type} : Except ε α → Bool
  | Except.ok _ => true
  | Except.error _ => false

/-- Outcomes of the underlying renderer calls made by `stop`. -/
structure StopEnv where
  stopResult : Except JsError Unit
  pauseResult : Except JsError Unit

/-- The try/catch body of `stop` once a renderer has been resolved, with the
trace of transport calls issued: a 701 failure is swallowed, any other failure
triggers one `pause` whose own failure is swallowed too. -/
def runStop (s : StopEnv) : Except JsError Unit × List TransportOp :=
  match s.stopResult with
  | Except.ok u => (Except.ok u, [TransportOp.stop])
  | Except.error e =>
    if is701 e then (Except.ok (), [TransportOp.stop])
    else
      match s.pauseResult with
      | Except.ok u => (Except.ok u, [TransportOp.stop, TransportOp.pause])
      | Except.error _ => (Except.ok (), [TransportOp.stop, TransportOp.pause])

/-- `stop(roomIdentifier)`: room lookup, renderer resolution, then the
try/catch body; an unresolvable room or renderer returns undefined with no
transport call. -/
def stopCmd (env : Env) (rooms : List RoomInfo) (id : String) (s : StopEnv) :
    Except JsError Unit × List TransportOp :=
  match findRoom rooms id with
  | none => (Except.ok (), [])
  | some room =>
    match getRendererForRoom env room with
    | none => (Except.ok (), [])
    | some _ => runStop s

/-- The `_parseMetadata` result record; the XML parse itself is format
translation outside this embedding, so the record enters `extractNowPlaying`
already parsed (all fields default to `""` when absent, as in the source). -/
structure MediaMetadata where
  track : String
  artist : String
  album : String
  image : String
  classString : String
deriving DecidableEq

/-- The fields of `renderer.rendererState` consumed by the capability logic of
`_extractNowPlaying`; `NumberOfTracks` stands for the already-converted
`parseInt(state.NumberOfTracks) || 0` value. -/
structure TransportInfo where
  TransportState : String
  CurrentTransportActions : Option String
  NumberOfTracks : Nat
deriving DecidableEq

/-- `state.CurrentTransportActions ?? ''`. -/
def declaredActions (st : TransportInfo) : String :=
  st.CurrentTransportActions.getD ""

/-- `canPlayPause` from the declared actions: `/Play|Pause|Stop/i.test(actions)`
guarded by truthiness of the actions string. -/
def declaredPause (st : TransportInfo) : Bool :=
  let a := declaredActions st
  if a != "" then
    strContainsCI a "Play" || strContainsCI a "Pause" || strContainsCI a "Stop"
  else false

/-- `canPlayNext` from the declared actions: `actions.includes('Next')`. -/
def declaredNext (st : TransportInfo) : Bool :=
  let a := declaredActions st
  if a != "" then strContains a "Next" else false

/-- `canPlayPrev` from the declared actions: `actions.includes('Previous')`. -/
def declaredPrev (st : TransportInfo) : Bool :=
  let a := declaredActions st
  if a != "" then strContains a "Previous" else false

/-- `_isContainerMedia(classString)`. -/
def isContainerMedia (classString : String) : Bool :=
  if classString == "" then false
  else
    strStarts classString "object.container" ||
      strContainsCI classString "playlist" ||
      strContainsCI classString "album" ||
      strContainsCI classString "podcastContainer"

/-- The radio test of `_extractNowPlaying`:
`classString?.includes('audioBroadcast') || classString?.includes('radio')`
(case-sensitive, as in the source). -/
def isRadioClass (c : String) : Bool :=
  strContains c "audioBroadcast" || strContains c "radio"

/-- The capability fields of the `NowPlayingState` snapshot. -/
structure NowPlayingCaps where
  isPlaying : Bool
  isLoading : Bool
  canPlayPause : Bool
  canPlayNext : Bool
  canPlayPrev : Bool
deriving DecidableEq

/-- The transport/capability part of `_extractNowPlaying`: declared actions
first, then the container/multi-track inference (suppressed for radio), then
next/prev forced false while transitioning. -/
def extractNowPlaying (st : TransportInfo) (meta : MediaMetadata) : NowPlayingCaps :=
  let isLoading := st.TransportState == "TRANSITIONING"
  let isPlaying := st.TransportState == "PLAYING"
  let next0 := declaredNext st
  let prev0 := declaredPrev st
  let infer :=
    (!next0 || !prev0) &&
      (!(isRadioClass meta.classString) &&
        ((isContainerMedia meta.classString && meta.track != "") ||
          decide (1 < st.NumberOfTracks)))
  let canPlayNext := if infer then true else next0
  let canPlayPrev := if infer then true else prev0
  { isPlaying := isPlaying
    isLoading := isLoading
    canPlayPause := declaredPause st
    canPlayNext := !isLoading && canPlayNext
    canPlayPrev := !isLoading && canPlayPrev }

/-- A resolved endpoint as seen by a load-type command: only its possession of
the specific load method (`loadUri`/`loadContainer`/`loadSingle`) matters. -/
structure RendererCap where
  canLoad : Bool
deriving DecidableEq

/-- Duck-typed capability probe `renderer?.loadXxx`. -/
def hasLoadCap : Option RendererCap → Bool
  | some r => r.canLoad
  | none => false

/-- The environment of one load-type command invocation: the endpoint from
`_getRendererForRoom`, the endpoint `_ensureVirtualRenderer` would produce,
and the outcome of the load call itself when one is made. -/
structure LoadEnv where
  first : Option RendererCap
  ensured : Option RendererCap
  loadResult : Except JsError Unit

/-- Observable behaviour of one load-type command: the promise outcome the
caller sees, the number of `_ensureVirtualRenderer` invocations and the number
of underlying load invocations. -/
structure LoadTrace where
  result : Except JsError Unit
  ensureCalls : Nat
  loadCalls : Nat

/-- The shared body of `loadUri`/`loadContainer`/`loadSingle` after room
lookup: when the first endpoint lacks the load method, `_ensureVirtualRenderer`
is consulted once; when the endpoint finally used still lacks it, the command
only logs and resolves with undefined. -/
def runLoad (env : LoadEnv) : LoadTrace :=
  if hasLoadCap env.first then
    { result := env.loadResult, ensureCalls := 0, loadCalls := 1 }
  else if hasLoadCap env.ensured then
    { result := env.loadResult, ensureCalls := 1, loadCalls := 1 }
  else
    { result := Except.ok (), ensureCalls := 1, loadCalls := 0 }

/-- The collaborator surface consumed by `_ensureVirtualRenderer`: the live
zone query as a function of the poll attempt index, the virtual renderers, and
the room's renderer UDN with its physical availability. -/
structure EnsureEnv where
  liveAt : Nat → Option String
  virt : List VirtualRenderer
  rendererUdn : String
  physPresent : Bool

/-- One poll attempt of `_ensureVirtualRenderer`: the live zone UDN must be
truthy and its virtual renderer present. -/
def tryAttempt (env : EnsureEnv) (i : Nat) : Option VirtualRenderer :=
  match env.liveAt i with
  | some z => if z != "" then env.virt.find? (fun v => v.udn == z) else none
  | none => none

/-- The poll loop of `_ensureVirtualRenderer`, started at attempt index `i`
with `r` attempts remaining; returns the renderer found (if any), the number
of attempts executed and the number of 500 ms delays awaited (a delay follows
every failed attempt except the last one). -/
def pollAux (env : EnsureEnv) : Nat → Nat → Option VirtualRenderer × Nat × Nat
  | _, 0 => (none, 0, 0)
  | i, r + 1 =>
    match tryAttempt env i with
    | some v => (some v, 1, 0)
    | none =>
      if r = 0 then (none, 1, 0)
      else
        let t := pollAux env (i + 1) r
        (t.1, t.2.1 + 1, t.2.2 + 1)

/-- The post-exhaustion fallback scan of `_ensureVirtualRenderer` (note: no
truthiness guard on `rendererUdn` here, unlike `_getRendererForRoom`). -/
def ensureScan (env : EnsureEnv) : Option VirtualRenderer :=
  env.virt.find? (fun v => v.memberRendererUdns.contains env.rendererUdn)

/-- The fallback chain after the poll loop exhausts: member scan, then the
physical renderer. -/
def ensureFallback (env : EnsureEnv) : Option RendererHandle :=
  match ensureScan env with
  | some v => some (RendererHandle.virt v)
  | none =>
    if env.physPresent then some (RendererHandle.phys env.rendererUdn) else none

/-- Observable behaviour of one `_ensureVirtualRenderer` call. -/
structure EnsureTrace where
  result : Option RendererHandle
  attempts : Nat
  delays : Nat
  connectCalls : Nat
deriving DecidableEq

/-- `_ensureVirtualRenderer(room)`: one `connectRoomToZone` request (its own
failure is caught and logged), then the 15-attempt poll loop, then the
fallback chain. -/
def ensureVirtualRenderer (env : EnsureEnv) : EnsureTrace :=
  let t := pollAux env 0 15
  match t.1 with
  | some v =>
    { result := some (RendererHandle.virt v), attempts := t.2.1, delays := t.2.2,
      connectCalls := 1 }
  | none =>
    { result := ensureFallback env, attempts := t.2.1, delays := t.2.2,
      connectCalls := 1 }

/-! ## Helper lemmas -/

theorem mem_updateFirst {α : Type} {p : α → Bool} {f : α → α} {l : List α} {x : α}
    (hx : x ∈ updateFirst p f l) : x ∈ l ∨ ∃ r ∈ l, p r = true ∧ x = f r := by
  induction l with
  | nil => simp [updateFirst] at hx
  | cons a t ih =>
    by_cases hp : p a = true
    · rw [updateFirst, if_pos hp] at hx
      rcases List.mem_cons.mp hx with h | h
      · exact Or.inr ⟨a, List.mem_cons_self a t, hp, h⟩
      · exact Or.inl (List.mem_cons_of_mem a h)
    · rw [updateFirst, if_neg hp] at hx
      rcases List.mem_cons.mp hx with h | h
      · exact Or.inl (h ▸ List.mem_cons_self a t)
      · rcases ih h with h1 | ⟨r, hr, hpr, hxr⟩
        · exact Or.inl (List.mem_cons_of_mem a h1)
        · exact Or.inr ⟨r, List.mem_cons_of_mem a hr, hpr, hxr⟩

theorem mem_applyMember {zones : List ZoneDesc} {z : ZoneDesc} {rooms : List RoomInfo}
    {m : String} {x : RoomInfo}
    (hz : z ∈ zones) (hzz : z.isZone = true) (hm : m ∈ z.roomUdns)
    (hrooms : ∀ r ∈ rooms, Ungrouped r ∨ GroupedBy zones r)
    (hx : x ∈ applyMember z z.roomUdns rooms m) :
    Ungrouped x ∨ GroupedBy zones x := by
  unfold applyMember at hx
  by_cases hany : rooms.any (fun r => r.rendererUdn == m) = true
  · rw [if_pos hany] at hx
    rcases mem_updateFirst hx with h | ⟨r, hr, hpr, hxr⟩
    · exact hrooms x h
    · subst hxr
      refine Or.inr ⟨z, hz, hzz, Or.inl ?_, rfl, rfl, rfl⟩
      have hrm : r.rendererUdn = m := by simpa using hpr
      simpa [setZone, hrm] using hm
  · rw [if_neg hany] at hx
    rcases mem_updateFirst hx with h | ⟨r, hr, hpr, hxr⟩
    · exact hrooms x h
    · subst hxr
      refine Or.inr ⟨z, hz, hzz, Or.inr ?_, rfl, rfl, rfl⟩
      have hrm : r.roomUdn = m := by simpa using hpr
      simpa [setZone, hrm] using hm

theorem mem_foldl_members {zones : List ZoneDesc} {z : ZoneDesc}
    (hz : z ∈ zones) (hzz : z.isZone = true) :
    ∀ ms : List String, (∀ m ∈ ms, m ∈ z.roomUdns) →
    ∀ rooms : List RoomInfo, (∀ r ∈ rooms, Ungrouped r ∨ GroupedBy zones r) →
    ∀ x ∈ ms.foldl (applyMember z z.roomUdns) rooms, Ungrouped x ∨ GroupedBy zones x := by
  intro ms
  induction ms with
  | nil =>
    intro _ rooms hrooms x hx
    exact hrooms x (by simpa using hx)
  | cons m ms ih =>
    intro hms rooms hrooms x hx
    rw [List.foldl_cons] at hx
    exact ih (fun m' hm' => hms m' (List.mem_cons_of_mem m hm'))
      (applyMember z z.roomUdns rooms m)
      (fun r hr => mem_applyMember hz hzz (hms m (List.mem_cons_self m ms)) hrooms hr)
      x hx

theorem mem_applyZone {zones : List ZoneDesc} {z : ZoneDesc} (hz : z ∈ zones)
    {rooms : List RoomInfo}
    (hrooms : ∀ r ∈ rooms, Ungrouped r ∨ GroupedBy zones r) :
    ∀ x ∈ applyZone rooms z, Ungrouped x ∨ GroupedBy zones x := by
  intro x hx
  unfold applyZone at hx
  by_cases hzz : z.isZone = true
  · rw [if_pos hzz] at hx
    exact mem_foldl_members hz hzz z.roomUdns (fun _ h => h) rooms hrooms x hx
  · rw [if_neg hzz] at hx
    exact hrooms x hx

theorem mem_foldl_zones {zones : List ZoneDesc} :
    ∀ zs : List ZoneDesc, (∀ z ∈ zs, z ∈ zones) →
    ∀ rooms : List RoomInfo, (∀ r ∈ rooms, Ungrouped r ∨ GroupedBy zones r) →
    ∀ x ∈ zs.foldl applyZone rooms, Ungrouped x ∨ GroupedBy zones x := by
  intro zs
  induction zs with
  | nil =>
    intro _ rooms hrooms x hx
    exact hrooms x (by simpa using hx)
  | cons z zs ih =>
    intro hzs rooms hrooms x hx
    rw [List.foldl_cons] at hx
    exact ih (fun z' h => hzs z' (List.mem_cons_of_mem z h)) (applyZone rooms z)
      (mem_applyZone (hzs z (List.mem_cons_self z zs)) hrooms) x hx

theorem ungrouped_reset (rooms : List RoomInfo) :
    ∀ r ∈ rooms.map resetZone, Ungrouped r := by
  intro r hr
  rcases List.mem_map.mp hr with ⟨a, -, rfl⟩
  exact ⟨rfl, rfl, rfl⟩

/-! ## Claim theorems -/

/-- Claim C1: after `_updateZoneMappings` runs on a snapshot that carries a
zone list, every registered room is exactly one of ungrouped (zone fields
reset, self-only membership) or grouped by some `isZone` descriptor of this
snapshot whose id, member list (order preserved) and name it carries; and the
result is independent of whatever zone fields the rooms carried before the
event (full replace, no stale membership). -/
theorem C1_zone_mapping_partition (zones : List ZoneDesc) (rooms : List RoomInfo) :
    (∀ x ∈ updateZoneMappings (some zones) rooms,
      (Ungrouped x ∨ GroupedBy zones x) ∧ ¬(Ungrouped x ∧ GroupedBy zones x))
    ∧ ∀ f : RoomInfo → RoomInfo,
        (∀ r, (f r).name = r.name ∧ (f r).roomUdn = r.roomUdn ∧
          (f r).rendererUdn = r.rendererUdn) →
        updateZoneMappings (some zones) (rooms.map f) =
          updateZoneMappings (some zones) rooms := by
  constructor
  · intro x hx
    constructor
    · exact mem_foldl_zones zones (fun _ h => h) (rooms.map resetZone)
        (fun r hr => Or.inl (ungrouped_reset rooms r hr)) x hx
    · rintro ⟨⟨hnone, -, -⟩, ⟨z, -, -, -, hsome, -⟩⟩
      rw [hnone] at hsome
      exact Option.noConfusion hsome
  · intro f hf
    have hreset : ∀ r, resetZone (f r) = resetZone r := by
      intro r
      obtain ⟨h1, h2, h3⟩ := hf r
      simp [resetZone, h1, h2, h3]
    show zones.foldl applyZone ((rooms.map f).map resetZone) =
      zones.foldl applyZone (rooms.map resetZone)
    rw [List.map_map]
    have : resetZone ∘ f = resetZone := funext hreset
    rw [this]

def zonesC1 : List ZoneDesc :=
  [{ udn := "Z1", name := "Living group", isZone := true, roomUdns := ["R1", "R2"] }]

def roomsC1 : List RoomInfo :=
  [{ name := "Alpha", roomUdn := "R1", rendererUdn := "REND1",
     zoneUdn := some "OLDZONE", zoneMembers := ["R1", "R9"], zoneName := some "Old" },
   { name := "Beta", roomUdn := "R3", rendererUdn := "REND3",
     zoneUdn := some "OLDZONE", zoneMembers := ["R1", "R3"], zoneName := some "Old" }]

def roomC1x : RoomInfo :=
  { name := "Alpha", roomUdn := "R1", rendererUdn := "REND1",
    zoneUdn := some "Z1", zoneMembers := ["R1", "R2"], zoneName := some "Living group" }

theorem C1_zone_mapping_partition_witness :
    (Ungrouped roomC1x ∨ GroupedBy zonesC1 roomC1x) ∧
      ¬(Ungrouped roomC1x ∧ GroupedBy zonesC1 roomC1x) :=
  (C1_zone_mapping_partition zonesC1 roomsC1).1 roomC1x (by decide)

/-- Claim C9: the `systemHostLost` handler resets the whole state: the system
is marked not ready, the registry is wiped, and on the post-reset state every
room lookup — by room UDN, zone UDN or name substring — returns not-found for
every identifier, until a later refresh repopulates the state. -/
theorem C9_host_lost_reset (s : HelperState) (id : String) :
    (resetState s).isReady = false
    ∧ (resetState s).registry = []
    ∧ (resetState s).availableRooms = []
    ∧ findRoom (resetState s).availableRooms id = none := by
  refine ⟨rfl, rfl, rfl, ?_⟩
  show findRoom [] id = none
  by_cases h : (id == "") = true
  · simp [findRoom, h]
  · by_cases h2 : 2 < id.length
    · simp [findRoom, h, h2, List.find?]
    · simp [findRoom, h, h2, List.find?]

/-- Claim C10: `_updateZoneMappings` with an absent or null `zones` field is a
no-op on the registry: every room, all fields included, is left exactly as it
was; the ungroup-all reset happens only when a zone list is present. -/
theorem C10_null_zones_noop (rooms : List RoomInfo) :
    updateZoneMappings none rooms = rooms := rfl

/-- Claim C2: `_getRendererForRoom` follows the strict priority order, first
success wins: (1) when the live zone query returns a zone id the cached
`zoneUdn` is never consulted (the result is the same for every cache value);
(2) the cached zone id is used when the live query yields nothing; (3) a direct
virtual-renderer hit on the obtained zone id wins over the member-list scan;
(4) the physical renderer is returned only when both the zone lookup and the
member scan fail. -/
theorem C2_resolution_priority (env : Env) (room : RoomInfo) :
    (∀ z, env.live room.roomUdn = some z → z ≠ "" →
      ∀ c1 c2 : Option String,
        getRendererForRoom env { room with zoneUdn := c1 } =
          getRendererForRoom env { room with zoneUdn := c2 })
    ∧ (∀ c v, otruthy (env.live room.roomUdn) = false → room.zoneUdn = some c →
        c ≠ "" → env.virt.find? (fun w => w.udn == c) = some v →
        getRendererForRoom env room = some (RendererHandle.virt v))
    ∧ (∀ z v, env.live room.roomUdn = some z → z ≠ "" →
        env.virt.find? (fun w => w.udn == z) = some v →
        getRendererForRoom env room = some (RendererHandle.virt v))
    ∧ (∀ u, getRendererForRoom env room = some (RendererHandle.phys u) →
        u = room.rendererUdn ∧ zoneLookup env room = none ∧
          memberScan env room = none) := by
  refine ⟨?_, ?_, ?_, ?_⟩
  · intro z hz hzne c1 c2
    have hzl : ∀ c : Option String,
        zoneLookup env { room with zoneUdn := c } =
          env.virt.find? (fun w => w.udn == z) := by
      intro c
      simp [zoneLookup, liveOrCachedZone, hz, otruthy, hzne]
    simp only [getRendererForRoom, hzl c1, hzl c2]
    rfl
  · intro c v hlive hc hcne hfind
    have h1 : liveOrCachedZone env room = some c := by
      simp only [liveOrCachedZone]
      rw [hlive, hc]
      simp [otruthy, hcne]
    have h2 : zoneLookup env room = some v := by
      simp [zoneLookup, h1, hcne, hfind]
    simp [getRendererForRoom, h2]
  · intro z v hz hzne hfind
    have h1 : liveOrCachedZone env room = some z := by
      simp [liveOrCachedZone, hz, otruthy, hzne]
    have h2 : zoneLookup env room = some v := by
      simp [zoneLookup, h1, hzne, hfind]
    simp [getRendererForRoom, h2]
  · intro u hu
    unfold getRendererForRoom at hu
    cases h1 : zoneLookup env room with
    | some v => rw [h1] at hu; exact absurd hu (by simp)
    | none =>
      rw [h1] at hu
      cases h2 : memberScan env room with
      | some v => rw [h2] at hu; exact absurd hu (by simp)
      | none =>
        rw [h2] at hu
        by_cases h3 : env.phys.contains room.rendererUdn = true
        · rw [if_pos h3] at hu
          have hinj : room.rendererUdn = u := by simpa using hu
          exact ⟨hinj.symm, rfl, rfl⟩
        · rw [if_neg h3] at hu
          exact Option.noConfusion hu

def envC2 : Env :=
  { live := fun _ => some "Z1",
    virt := [{ udn := "Z1", memberRendererUdns := ["REND1"] }],
    phys := [] }

def roomC2 : RoomInfo :=
  { name := "Alpha", roomUdn := "R1", rendererUdn := "REND1",
    zoneUdn := some "STALE", zoneMembers := ["R1"], zoneName := none }

theorem C2_resolution_priority_witness :
    getRendererForRoom envC2 roomC2 =
      some (RendererHandle.virt { udn := "Z1", memberRendererUdns := ["REND1"] }) :=
  (C2_resolution_priority envC2 roomC2).2.2.1 "Z1"
    { udn := "Z1", memberRendererUdns := ["REND1"] } rfl (by decide) rfl

/-- Claim C3: once a room's renderer resolves, `stop` never rejects: a 701
("transition not available") failure of the underlying stop is swallowed and
`stop` returns silently without trying pause, and any other stop failure leads
to exactly one substitute `pause` whose own failure is swallowed too. -/
theorem C3_stop_swallows (env : Env) (rooms : List RoomInfo) (id : String)
    (s : StopEnv) (room : RoomInfo) (hR : RendererHandle)
    (h1 : findRoom rooms id = some room)
    (h2 : getRendererForRoom env room = some hR) :
    isOkB (stopCmd env rooms id s).1 = true
    ∧ (∀ e, s.stopResult = Except.error e → is701 e = true →
        stopCmd env rooms id s = (Except.ok (), [TransportOp.stop]))
    ∧ (∀ e, s.stopResult = Except.error e → is701 e = false →
        (stopCmd env rooms id s).2 = [TransportOp.stop, TransportOp.pause]) := by
  have hcmd : stopCmd env rooms id s = runStop s := by
    simp [stopCmd, h1, h2]
  refine ⟨?_, ?_, ?_⟩
  · rw [hcmd]
    cases hs : s.stopResult with
    | ok u => simp [runStop, hs, isOkB]
    | error e =>
      by_cases h7 : is701 e = true
      · simp [runStop, hs, h7, isOkB]
      · cases hp : s.pauseResult with
        | ok u => simp [runStop, hs, h7, hp, isOkB]
        | error e2 => simp [runStop, hs, h7, hp, isOkB]
  · intro e he h7
    rw [hcmd]
    simp [runStop, he, h7]
  · intro e he h7
    rw [hcmd]
    cases hp : s.pauseResult with
    | ok u => simp [runStop, he, h7, hp]
    | error e2 => simp [runStop, he, h7, hp]

def envC3 : Env :=
  { live := fun _ => none, virt := [], phys := ["REND1"] }

def roomsC3 : List RoomInfo :=
  [{ name := "Alpha", roomUdn := "R1", rendererUdn := "REND1",
     zoneUdn := none, zoneMembers := ["R1"], zoneName := none }]

def stopEnvC3 : StopEnv :=
  { stopResult := Except.error { errorCode := some "701", message := none },
    pauseResult := Except.ok () }

theorem C3_stop_swallows_witness :
    stopCmd envC3 roomsC3 "R1" stopEnvC3 = (Except.ok (), [TransportOp.stop]) :=
  (C3_stop_swallows envC3 roomsC3 "R1" stopEnvC3
      { name := "Alpha", roomUdn := "R1", rendererUdn := "REND1",
        zoneUdn := none, zoneMembers := ["R1"], zoneName := none }
      (RendererHandle.phys "REND1") rfl rfl).2.1
    { errorCode := some "701", message := none } rfl (by decide)

/-- Claim C4: once room lookup and renderer resolution succeed, `prev` issues
exactly two underlying previous-track calls; transport state is not an input
of the command at all, so the two calls are unconditional. -/
theorem C4_prev_double (env : Env) (rooms : List RoomInfo) (id : String)
    (room : RoomInfo) (hR : RendererHandle)
    (h1 : findRoom rooms id = some room)
    (h2 : getRendererForRoom env room = some hR) :
    prevCmd env rooms id = [TransportOp.prev, TransportOp.prev]
    ∧ (prevCmd env rooms id).count TransportOp.prev = 2 := by
  have h : prevCmd env rooms id = [TransportOp.prev, TransportOp.prev] := by
    simp [prevCmd, h1, h2]
  exact ⟨h, by rw [h]; rfl⟩

theorem C4_prev_double_witness :
    prevCmd envC3 roomsC3 "R1" = [TransportOp.prev, TransportOp.prev] :=
  (C4_prev_double envC3 roomsC3 "R1"
      { name := "Alpha", roomUdn := "R1", rendererUdn := "REND1",
        zoneUdn := none, zoneMembers := ["R1"], zoneName := none }
      (RendererHandle.phys "REND1") rfl rfl).1

/-- Claim C5: for radio-classified content (upnp class containing
`audioBroadcast` or `radio`) the container/multi-track inference is suppressed,
so next/prev capabilities equal exactly the declared transport actions, still
forced false while the transport is transitioning. -/
theorem C5_radio_no_inference (st : TransportInfo) (meta : MediaMetadata)
    (h : isRadioClass meta.classString = true) :
    (extractNowPlaying st meta).canPlayNext =
      (!(st.TransportState == "TRANSITIONING") && declaredNext st)
    ∧ (extractNowPlaying st meta).canPlayPrev =
      (!(st.TransportState == "TRANSITIONING") && declaredPrev st) := by
  unfold extractNowPlaying
  simp [h]

def stC5 : TransportInfo :=
  { TransportState := "PLAYING", CurrentTransportActions := some "Play,Pause",
    NumberOfTracks := 5 }

def metaC5 : MediaMetadata :=
  { track := "Morning show", artist := "", album := "", image := "",
    classString := "object.item.audioItem.audioBroadcast" }

theorem C5_radio_no_inference_witness :
    (extractNowPlaying stC5 metaC5).canPlayNext = false
    ∧ (extractNowPlaying stC5 metaC5).canPlayPrev = false := by
  have h := C5_radio_no_inference stC5 metaC5 (by decide)
  exact ⟨h.1.trans (by decide), h.2.trans (by decide)⟩

/-- Claim C6 as stated is refuted by `findRoom`'s length guard: the identifier
`"Ki"` is neither a room UDN nor a zone UDN of the one-room registry, exactly
one room name contains it case-insensitively, yet `findRoom` returns
not-found because the identifier is not longer than two characters. -/
def roomsC6 : List RoomInfo :=
  [{ name := "Kitchen", roomUdn := "uuid:room-1", rendererUdn := "uuid:renderer-1",
     zoneUdn := none, zoneMembers := ["uuid:room-1"], zoneName := none }]

theorem C6_short_identifier_counterexample :
    (∀ r ∈ roomsC6, r.roomUdn ≠ "Ki" ∧ r.zoneUdn ≠ some "Ki")
    ∧ (roomsC6.filter (fun r => strContainsCI r.name "Ki")).length = 1
    ∧ findRoom roomsC6 "Ki" = none := by
  refine ⟨by decide, by decide, by decide⟩

/-- Claim C6, amended with the length guard the source applies: for every
identifier longer than two characters that matches no room UDN and no zone
UDN exactly, `findRoom` returns the unique case-insensitive name-substring
match when exactly one room matches, and not-found when two or more match. -/
theorem C6_name_lookup (rooms : List RoomInfo) (id : String)
    (hlen : 2 < id.length)
    (hroom : ∀ r ∈ rooms, r.roomUdn ≠ id)
    (hzone : ∀ r ∈ rooms, r.zoneUdn ≠ some id) :
    (∀ m, rooms.filter (fun r => strContainsCI r.name id) = [m] →
      findRoom rooms id = some m)
    ∧ (2 ≤ (rooms.filter (fun r => strContainsCI r.name id)).length →
      findRoom rooms id = none) := by
  have hne : (id == "") = false := by
    have h : id ≠ "" := by
      intro h
      subst h
      simp at hlen
    simpa using h
  have hf1 : rooms.find? (fun r => r.roomUdn == id) = none := by
    rw [List.find?_eq_none]
    intro r hr
    simpa using hroom r hr
  have hf2 : rooms.find? (fun r => r.zoneUdn == some id) = none := by
    rw [List.find?_eq_none]
    intro r hr
    simpa using hzone r hr
  constructor
  · intro m hm
    simp [findRoom, hne, hf1, hf2, hlen, hm]
  · intro hlen2
    cases hfil : rooms.filter (fun r => strContainsCI r.name id) with
    | nil =>
      rw [hfil] at hlen2
      simp at hlen2
    | cons a t =>
      cases t with
      | nil =>
        rw [hfil] at hlen2
        simp at hlen2
      | cons b t2 =>
        simp [findRoom, hne, hf1, hf2, hlen, hfil]

theorem C6_name_lookup_witness :
    findRoom roomsC6 "Kit" =
      some { name := "Kitchen", roomUdn := "uuid:room-1",
             rendererUdn := "uuid:renderer-1", zoneUdn := none,
             zoneMembers := ["uuid:room-1"], zoneName := none } :=
  (C6_name_lookup roomsC6 "Kit" (by decide) (by decide) (by decide)).1
    { name := "Kitchen", roomUdn := "uuid:room-1",
      rendererUdn := "uuid:renderer-1", zoneUdn := none,
      zoneMembers := ["uuid:room-1"], zoneName := none } (by decide)

/-- Claim C7 as stated is refuted on the failure-reporting clause: with an
initial endpoint and an ensured endpoint that both lack the load capability,
the load command consults `_ensureVirtualRenderer` once and performs no load,
but its returned promise still resolves successfully — the caller observes
silent success, not a failure. -/
def loadEnvC7 : LoadEnv :=
  { first := none, ensured := none, loadResult := Except.ok () }

theorem C7_silent_incapable_counterexample :
    hasLoadCap loadEnvC7.first = false
    ∧ hasLoadCap loadEnvC7.ensured = false
    ∧ (runLoad loadEnvC7).ensureCalls = 1
    ∧ (runLoad loadEnvC7).loadCalls = 0
    ∧ isOkB (runLoad loadEnvC7).result = true := by
  refine ⟨rfl, rfl, rfl, rfl, rfl⟩

/-- Claim C7, amended: when the first resolved endpoint lacks the load
capability, the command invokes the Ensure-Grouped variant exactly once and
retries on its result; if that endpoint is still incapable, the command logs,
performs no load, and resolves successfully — no failure value reaches the
caller. -/
theorem C7_load_retry_once (env : LoadEnv) (h : hasLoadCap env.first = false) :
    (runLoad env).ensureCalls = 1
    ∧ (hasLoadCap env.ensured = true →
        (runLoad env).result = env.loadResult ∧ (runLoad env).loadCalls = 1)
    ∧ (hasLoadCap env.ensured = false →
        (runLoad env).result = Except.ok () ∧ (runLoad env).loadCalls = 0) := by
  by_cases h2 : hasLoadCap env.ensured = true
  · refine ⟨?_, fun _ => ⟨?_, ?_⟩, fun hc => absurd h2 (by simp [hc])⟩ <;>
      simp [runLoad, h, h2]
  · have h2' : hasLoadCap env.ensured = false := by
      simpa using h2
    refine ⟨?_, fun hc => absurd hc h2, fun _ => ⟨?_, ?_⟩⟩ <;>
      simp [runLoad, h, h2']

def loadEnvC7w : LoadEnv :=
  { first := none, ensured := some { canLoad := true },
    loadResult := Except.error { errorCode := some "500", message := none } }

theorem C7_load_retry_once_witness :
    (runLoad loadEnvC7w).ensureCalls = 1 ∧ (runLoad loadEnvC7w).loadCalls = 1 :=
  ⟨(C7_load_retry_once loadEnvC7w rfl).1,
    ((C7_load_retry_once loadEnvC7w rfl).2.1 rfl).2⟩

theorem pollAux_bounds (env : EnsureEnv) :
    ∀ r i : Nat, 1 ≤ r →
      1 ≤ (pollAux env i r).2.1 ∧ (pollAux env i r).2.1 ≤ r ∧
        (pollAux env i r).2.2 + 1 = (pollAux env i r).2.1 := by
  intro r
  induction r with
  | zero => intro i h; omega
  | succ r ih =>
    intro i _
    cases htry : tryAttempt env i with
    | some v => simp [pollAux, htry]
    | none =>
      by_cases hr : r = 0
      · subst hr
        simp [pollAux, htry]
      · have hr1 : 1 ≤ r := Nat.one_le_iff_ne_zero.mpr hr
        have h := ih (i + 1) hr1
        simp only [pollAux, htry, hr, if_false]
        refine ⟨by omega, by omega, by omega⟩

theorem pollAux_exhaust (env : EnsureEnv) :
    ∀ r i : Nat, 1 ≤ r → (∀ j, j < r → tryAttempt env (i + j) = none) →
      pollAux env i r = (none, r, r - 1) := by
  intro r
  induction r with
  | zero => intro i h; omega
  | succ r ih =>
    intro i _ hall
    have h0 : tryAttempt env i = none := by
      have := hall 0 (Nat.succ_pos r)
      simpa using this
    by_cases hr : r = 0
    · subst hr
      simp [pollAux, h0]
    · have hr1 : 1 ≤ r := Nat.one_le_iff_ne_zero.mpr hr
      have hrec : pollAux env (i + 1) r = (none, r, r - 1) := by
        refine ih (i + 1) hr1 (fun j hj => ?_)
        have hj1 : j + 1 < r + 1 := by omega
        have := hall (j + 1) hj1
        have harith : i + (j + 1) = i + 1 + j := by omega
        rwa [harith] at this
      simp only [pollAux, h0, hr, if_false, hrec]
      refine Prod.ext rfl (Prod.ext rfl ?_)
      simp
      omega

/-- Claim C8: `_ensureVirtualRenderer` always terminates: it issues one
zone-connect request, its poll loop runs at most 15 attempts with one 500 ms
delay after every failed attempt except the last (delays = attempts − 1), and
when every attempt fails it performs exactly 15 attempts and 14 delays and
falls back to the member scan and then the physical renderer. -/
theorem C8_ensure_terminates (env : EnsureEnv) :
    (ensureVirtualRenderer env).connectCalls = 1
    ∧ (ensureVirtualRenderer env).attempts ≤ 15
    ∧ (ensureVirtualRenderer env).delays + 1 = (ensureVirtualRenderer env).attempts
    ∧ ((∀ j, j < 15 → tryAttempt env j = none) →
        (ensureVirtualRenderer env).attempts = 15
        ∧ (ensureVirtualRenderer env).delays = 14
        ∧ (ensureVirtualRenderer env).result = ensureFallback env) := by
  have hb := pollAux_bounds env 15 0 (by omega)
  have htrace : (ensureVirtualRenderer env).attempts = (pollAux env 0 15).2.1 ∧
      (ensureVirtualRenderer env).delays = (pollAux env 0 15).2.2 ∧
      (ensureVirtualRenderer env).connectCalls = 1 := by
    unfold ensureVirtualRenderer
    cases h : (pollAux env 0 15).1 <;> simp [h]
  refine ⟨htrace.2.2, ?_, ?_, ?_⟩
  · rw [htrace.1]
    exact hb.2.1
  · rw [htrace.1, htrace.2.1]
    exact hb.2.2
  · intro hall
    have hex : pollAux env 0 15 = (none, 15, 14) := by
      have := pollAux_exhaust env 15 0 (by omega) (fun j hj => by simpa using hall j hj)
      simpa using this
    refine ⟨by rw [htrace.1, hex], by rw [htrace.2.1, hex], ?_⟩
    unfold ensureVirtualRenderer
    rw [hex]

def ensureEnvC8 : EnsureEnv :=
  { liveAt := fun _ => none, virt := [], rendererUdn := "REND1", physPresent := true }

theorem C8_ensure_terminates_witness :
    (ensureVirtualRenderer ensureEnvC8).attempts = 15
    ∧ (ensureVirtualRenderer ensureEnvC8).delays = 14
    ∧ (ensureVirtualRenderer ensureEnvC8).result = ensureFallback ensureEnvC8 :=
  (C8_ensure_terminates ensureEnvC8).2.2.2 (fun _ _ => rfl)

end Raumfeld
